import Mathlib

/-!
Shallow embedding of the token lifecycle engine of `mcp-oauth-bridge`
(`src/tokens.ts`, `src/oauth.ts`, `src/mcp-client.ts`, `src/types.ts`).

JavaScript optional number/string fields are modelled as `Option Int` /
`Option String`; the JS truthiness tests the code performs on them
(`!token.expires_at`, `!currentToken?.refresh_token`, ...) are modelled by
`numTruthy` / `strTruthy`, under which `undefined` (`none`), `0` and `""`
are falsy.  `Date.now()` is passed explicitly as `now` (epoch milliseconds).
Outbound HTTP exchanges are passed in as explicit values (`HttpResult`,
`AxiosFailure`) or as function parameters, so that "makes no network call"
is expressible as independence from that parameter.
-/

/-- JS truthiness of an optional number: `undefined` and `0` are falsy. -/
def numTruthy : Option Int → Bool
  | none => false
  | some n => n != 0

/-- JS truthiness of an optional string: `undefined` and `""` are falsy. -/
def strTruthy : Option String → Bool
  | none => false
  | some s => s != ""

/-- Token record, from `OAuthToken` in `src/types.ts`. -/
structure OAuthToken where
  access_token : String
  refresh_token : Option String := none
  token_type : String
  expires_in : Option Int := none
  expires_at : Option Int := none
  scope : Option String := none
deriving Repr, DecidableEq

/-- Per-server OAuth parameters, from `OAuthConfig` in `src/types.ts`. -/
structure OAuthConfig where
  authorizationUrl : Option String := none
  tokenUrl : Option String := none
  clientId : Option String := none
  clientSecret : Option String := none
  scopes : List String := []
deriving Repr, DecidableEq

/-- Upstream server descriptor, from `MCPServer` in `src/types.ts`. -/
structure MCPServer where
  name : String
  url : String
  oauth : Option OAuthConfig := none
deriving Repr, DecidableEq

/-- `TOKEN_EXPIRY_BUFFER_MS` from `src/tokens.ts`: refresh 5 minutes early. -/
def TOKEN_EXPIRY_BUFFER_MS : Int := 5 * 60 * 1000

/-- `TokenManager.isExpired` from `src/tokens.ts`:
`if (!token.expires_at) return false; return token.expires_at - Date.now() < TOKEN_EXPIRY_BUFFER_MS`. -/
def isExpired (now : Int) (token : OAuthToken) : Bool :=
  if !(numTruthy token.expires_at) then false
  else decide (token.expires_at.getD 0 - now < TOKEN_EXPIRY_BUFFER_MS)

/-- `TokenManager.saveToken` from `src/tokens.ts`, as the record actually
written to disk (and hence returned by a later `loadToken`):
`if (token.expires_in && !token.expires_at) token =
\x7b ...token, expires_at: Date.now() + token.expires_in * 1000 \x7d`. -/
def saveToken (now : Int) (token : OAuthToken) : OAuthToken :=
  if numTruthy token.expires_in && !(numTruthy token.expires_at) then
    { token with expires_at := some (now + token.expires_in.getD 0 * 1000) }
  else token

/-- Distinct failure exits of `TokenManager`, one constructor per `throw`
site in `src/tokens.ts` (the spec's `NoTokenError`, `NoRefreshTokenError`,
`MissingEndpointError`, `MissingClientIdError`, `RefreshFailedError`). -/
inductive TokenError where
  | noToken
  | noRefreshToken
  | missingTokenUrl
  | missingClientId
  | refreshFailed (status : Int) (body : String)
deriving Repr, DecidableEq

/-- Outcome of the outbound token-endpoint POST: a 2xx response with parsed
token payload, or a non-2xx response (axios throws) with status and body. -/
inductive HttpResult where
  | ok (payload : OAuthToken)
  | httpError (status : Int) (body : String)
deriving Repr, DecidableEq

/-- `server.oauth?.tokenUrl` (optional chaining). -/
def serverTokenUrl (server : MCPServer) : Option String :=
  server.oauth.bind OAuthConfig.tokenUrl

/-- `server.oauth?.clientId` (optional chaining). -/
def serverClientId (server : MCPServer) : Option String :=
  server.oauth.bind OAuthConfig.clientId

/-- `currentToken?.refresh_token` (optional chaining on the load result). -/
def storedRefreshToken (stored : Option OAuthToken) : Option String :=
  stored.bind OAuthToken.refresh_token

/-- Result of a successful refresh: `returned` is the object
`refreshToken` returns to its caller; `saved` is the record written to
disk by `saveToken` (which may additionally stamp `expires_at`). -/
structure RefreshResult where
  returned : OAuthToken
  saved : OAuthToken
deriving Repr, DecidableEq

/-- `TokenManager.refreshToken` from `src/tokens.ts`.  `stored` is the
result of `loadToken`; `http` is the outcome of the token-endpoint POST,
reached only after the three precondition guards pass.  On 2xx, a payload
with a falsy `refresh_token` has the stored refresh credential spliced in
before the record is saved and returned. -/
def refreshToken (now : Int) (stored : Option OAuthToken) (server : MCPServer)
    (http : HttpResult) : Except TokenError RefreshResult :=
  if !(strTruthy (storedRefreshToken stored)) then
    .error .noRefreshToken
  else if !(strTruthy (serverTokenUrl server)) then
    .error .missingTokenUrl
  else if !(strTruthy (serverClientId server)) then
    .error .missingClientId
  else
    match http with
    | .httpError status body => .error (.refreshFailed status body)
    | .ok payload =>
      let newToken :=
        if !(strTruthy payload.refresh_token) then
          { payload with refresh_token := storedRefreshToken stored }
        else payload
      .ok { returned := newToken, saved := saveToken now newToken }

/-- `TokenManager.getValidToken` from `src/tokens.ts`: load, fail if none,
refresh if expired, otherwise return the stored record unchanged. -/
def getValidToken (now : Int) (stored : Option OAuthToken) (server : MCPServer)
    (http : HttpResult) : Except TokenError OAuthToken :=
  match stored with
  | none => .error .noToken
  | some token =>
    if isExpired now token then
      (refreshToken now stored server http).map RefreshResult.returned
    else
      .ok token

/-- Callback result `{ code, state }`, from `OAuthCallbackResult` in
`src/types.ts`. -/
structure OAuthCallbackResult where
  code : String
  state : String
deriving Repr, DecidableEq

/-- Distinct failure exits of the authorization flow in `src/oauth.ts`,
one constructor per `throw`/`reject` site (the spec's `MissingEndpointError`,
`MissingClientIdError`, `StateMismatchError`, `TokenExchangeError`,
`OAuthProviderError`, `MalformedCallbackError`, `CallbackTimeoutError`,
`PortInUseError`). -/
inductive FlowError where
  | missingAuthorizationUrl
  | missingTokenUrl
  | missingClientId
  | stateMismatch
  | exchangeFailed (status : Int) (body : String)
  | oauthProviderError (code : String)
  | malformedCallback
  | callbackTimeout
  | portInUse (port : Int)
deriving Repr, DecidableEq

/-- `runOAuthFlow` from `src/oauth.ts`, with the effectful pieces passed in
explicitly: `genState` is the random `state` generated for this attempt,
`cb` the awaited callback outcome, and `exchange` the code-for-token
exchange against the token endpoint (a parameter, so that "no exchange is
performed" is expressible as independence from it).  Returns the token the
flow returns paired with the record `saveToken` writes. -/
def runOAuthFlow (server : MCPServer) (genState : String)
    (cb : Except FlowError OAuthCallbackResult)
    (exchange : String → Except FlowError OAuthToken)
    (now : Int) : Except FlowError (OAuthToken × OAuthToken) :=
  if !(strTruthy (server.oauth.bind OAuthConfig.authorizationUrl)) then
    .error .missingAuthorizationUrl
  else if !(strTruthy (serverTokenUrl server)) then
    .error .missingTokenUrl
  else if !(strTruthy (serverClientId server)) then
    .error .missingClientId
  else
    match cb with
    | .error e => .error e
    | .ok callbackResult =>
      if callbackResult.state != genState then
        .error .stateMismatch
      else
        match exchange callbackResult.code with
        | .error e => .error e
        | .ok token => .ok (token, saveToken now token)

/-- An inbound HTTP request to the callback listener: its path and the
`code` / `state` / `error` query parameters (`searchParams.get` yields
`null`, i.e. `none`, for an absent parameter). -/
structure CallbackRequest where
  path : String
  code : Option String := none
  state : Option String := none
  error : Option String := none
deriving Repr, DecidableEq

/-- What the wait for the callback has produced so far. -/
inductive CallbackOutcome where
  | pending
  | resolved (result : OAuthCallbackResult)
  | oauthProviderError (code : String)
  | malformedCallback
deriving Repr, DecidableEq

/-- Per-request behaviour of the one-shot listener in `waitForCallback`
(`src/oauth.ts`): the HTTP status written, whether `server.close()` is
called, and the promise outcome.  Branch order follows the source:
non-`/callback` paths get 404 and are not a completion; a truthy `error`
parameter rejects with the provider error; a falsy `code` or `state`
rejects as malformed; otherwise the wait resolves with `{ code, state }`. -/
def handleCallbackRequest (req : CallbackRequest) : Nat × Bool × CallbackOutcome :=
  if req.path != "/callback" then
    (404, false, .pending)
  else if strTruthy req.error then
    (400, true, .oauthProviderError (req.error.getD ""))
  else if !(strTruthy req.code) || !(strTruthy req.state) then
    (400, true, .malformedCallback)
  else
    (200, true, .resolved { code := req.code.getD "", state := req.state.getD "" })

/-- Listener lifecycle state: whether the HTTP server is still accepting
requests, and the outcome produced so far. -/
structure ListenerState where
  isOpen : Bool
  outcome : CallbackOutcome
deriving Repr, DecidableEq

/-- One inbound request against the listener.  A closed listener accepts
nothing (no response, `none`); an open one answers per
`handleCallbackRequest`, closing itself on any completing request. -/
def listenerStep (st : ListenerState) (req : CallbackRequest) :
    ListenerState × Option Nat :=
  if !st.isOpen then (st, none)
  else
    match handleCallbackRequest req with
    | (status, closes, out) =>
      ({ isOpen := !closes, outcome := if closes then out else st.outcome },
       some status)

/-- How an outbound authorized upstream call failed, as axios reports it:
either no response at all (connection failure) or a non-2xx response with
status and body. -/
inductive AxiosFailure where
  | noResponse (message : String)
  | response (status : Int) (body : String)
deriving Repr, DecidableEq

/-- Distinct failure exits of `MCPClient.handleAxiosError`
(`src/mcp-client.ts`), one constructor per `throw` site (the spec's
`UnreachableError`, `AuthRejectedError`, `UpstreamError`,
`UnexpectedResponseError`). -/
inductive MCPCallError where
  | unreachable (serverName url message : String)
  | authRejected (serverName : String) (status : Int)
  | upstream (serverName : String) (status : Int)
  | unexpectedResponse (serverName : String) (status : Int) (body : String)
deriving Repr, DecidableEq

/-- `MCPClient.handleAxiosError` from `src/mcp-client.ts`: no response →
unreachable; 401/403 → auth rejected; `status && status >= 500` →
upstream; anything else → unexpected response carrying status and body. -/
def handleAxiosError (serverName url : String) : AxiosFailure → MCPCallError
  | .noResponse message => .unreachable serverName url message
  | .response status body =>
    if status = 401 ∨ status = 403 then .authRejected serverName status
    else if status ≠ 0 ∧ 500 ≤ status then .upstream serverName status
    else .unexpectedResponse serverName status body

/-- Outcome of one (single, never retried) upstream exchange in
`MCPClient.jsonRpcCall`: a 2xx body passes through, an axios failure is
classified by `handleAxiosError` and surfaced as a typed error. -/
def upstreamCall (serverName url : String)
    (result : Except AxiosFailure String) : Except MCPCallError String :=
  match result with
  | .ok body => .ok body
  | .error e => .error (handleAxiosError serverName url e)

/-- `saveToken` only ever touches the `expires_at` field. -/
theorem saveToken_preserves_access_token (now : Int) (token : OAuthToken) :
    (saveToken now token).access_token = token.access_token := by
  unfold saveToken; split <;> rfl

/-- `saveToken` never changes the refresh credential. -/
theorem saveToken_preserves_refresh_token (now : Int) (token : OAuthToken) :
    (saveToken now token).refresh_token = token.refresh_token := by
  unfold saveToken; split <;> rfl

/-- `saveToken` never changes the token type. -/
theorem saveToken_preserves_token_type (now : Int) (token : OAuthToken) :
    (saveToken now token).token_type = token.token_type := by
  unfold saveToken; split <;> rfl

/-- C2 (amended): `isExpired` returns true iff the record's expiry instant
is set to a nonzero value `e` with `e − now < 5 minutes`; a record whose
expiry instant is unset, or set to the (falsy) value `0`, is treated as
non-expiring at every `now`. -/
theorem c2_isExpired_nonzero_iff (now : Int) (token : OAuthToken) :
    isExpired now token = true ↔
      ∃ e, token.expires_at = some e ∧ e ≠ 0 ∧
        e - now < TOKEN_EXPIRY_BUFFER_MS := by
  cases h : token.expires_at with
  | none => simp [isExpired, numTruthy, h]
  | some e =>
    by_cases he : e = 0
    · subst he; simp [isExpired, numTruthy, h]
    · simp [isExpired, numTruthy, h, he]

/-- C2 (counterexample): the record with `expires_at = 0` has its expiry
instant set, and `0 − now < 5 minutes` holds at `now = 1000`, yet
`isExpired` returns false — the claimed iff fails because the code tests
JS truthiness (`!token.expires_at`), under which `0` counts as unset. -/
theorem c2_zero_expiry_counterexample :
    (OAuthToken.mk "tok" none "Bearer" none (some 0) none).expires_at.isSome = true ∧
    (OAuthToken.mk "tok" none "Bearer" none (some 0) none).expires_at.getD 0 - 1000 <
      TOKEN_EXPIRY_BUFFER_MS ∧
    isExpired 1000 (OAuthToken.mk "tok" none "Bearer" none (some 0) none) = false := by
  decide

/-- C9: a record whose `expires_at` field is present but equal to `0` is
treated as if the field were absent: `isExpired` returns false at every
`now`, and `saveToken` recomputes a fresh expiry instant from a nonzero
`expires_in` despite `expires_at` being present — the set/unset test is on
JS truthiness, not on the field's presence. -/
theorem c9_zero_expiry_truthiness (now : Int) (token : OAuthToken) (n : Int)
    (hat : token.expires_at = some 0) :
    isExpired now token = false ∧
      (token.expires_in = some n → n ≠ 0 →
        (saveToken now token).expires_at = some (now + n * 1000)) := by
  constructor
  · simp [isExpired, numTruthy, hat]
  · intro hin hn
    simp [saveToken, numTruthy, hat, hin, hn]

/-- C9 witness: at `now = 5` with `expires_at = 0` and `expires_in = 7`. -/
theorem c9_zero_expiry_truthiness_witness :
    isExpired 5 (OAuthToken.mk "a" none "Bearer" (some 7) (some 0) none) = false ∧
    (saveToken 5 (OAuthToken.mk "a" none "Bearer" (some 7) (some 0) none)).expires_at =
      some (5 + 7 * 1000) := by
  have h := c9_zero_expiry_truthiness 5
    (OAuthToken.mk "a" none "Bearer" (some 7) (some 0) none) 7 rfl
  exact ⟨h.1, h.2 rfl (by decide)⟩

/-- C4 (amended): saving a record with a nonzero lifetime `expires_in = n`
and a falsy (`undefined` or `0`) expiry instant stamps
`expires_at = saveTime + n*1000` exactly; saving a record whose expiry
instant is truthy (set and nonzero) persists the record unchanged and
never recomputes the instant, even when `expires_in` is also present. -/
theorem c4_save_expiry_stamping (now : Int) (token : OAuthToken) (n : Int) :
    (token.expires_in = some n → n ≠ 0 → numTruthy token.expires_at = false →
      (saveToken now token).expires_at = some (now + n * 1000)) ∧
    (numTruthy token.expires_at = true → saveToken now token = token) := by
  constructor
  · intro hin hn hat
    have hil : numTruthy (some n) = true := by simp [numTruthy, hn]
    simp [saveToken, hat, hin, hil]
  · intro hat
    simp [saveToken, hat]

/-- C4 witness: a fresh record with `expires_in = 60` gets stamped at
`now = 10`; a record with truthy `expires_at = 5` is saved unchanged. -/
theorem c4_save_expiry_stamping_witness :
    (saveToken 10 (OAuthToken.mk "x" none "Bearer" (some 60) none none)).expires_at =
      some (10 + 60 * 1000) ∧
    saveToken 10 (OAuthToken.mk "y" none "Bearer" (some 60) (some 5) none) =
      OAuthToken.mk "y" none "Bearer" (some 60) (some 5) none := by
  have h1 := (c4_save_expiry_stamping 10
    (OAuthToken.mk "x" none "Bearer" (some 60) none none) 60).1 rfl (by decide) (by decide)
  have h2 := (c4_save_expiry_stamping 10
    (OAuthToken.mk "y" none "Bearer" (some 60) (some 5) none) 60).2 (by decide)
  exact ⟨h1, h2⟩

/-- C4 (counterexample): `saveToken` at `now = 1000000` recomputes the
expiry instant of a record that already carries `expires_at = 0`
(the claim says an already-present instant is persisted unchanged), and a
record with `expires_in = 0` and no `expires_at` is saved with no expiry
instant at all (the claim says it would be stamped to about
`saveTime + 0`) — both because the code tests JS truthiness. -/
theorem c4_truthiness_counterexample :
    (saveToken 1000000 (OAuthToken.mk "a" none "Bearer" (some 3600) (some 0) none)).expires_at =
      some 4600000 ∧
    (OAuthToken.mk "a" none "Bearer" (some 3600) (some 0) none).expires_at = some 0 ∧
    (saveToken 1000000 (OAuthToken.mk "b" none "Bearer" (some 0) none none)).expires_at =
      none ∧
    (OAuthToken.mk "b" none "Bearer" (some 0) none none).expires_in = some 0 := by
  decide

/-- Concrete descriptor for the end-to-end scenario: token endpoint `T`,
identity `"svc"`. -/
def c1Server : MCPServer :=
  { name := "svc", url := "https://svc.example/mcp",
    oauth := some { tokenUrl := some "https://svc.example/token",
                    clientId := some "client-1" } }

/-- C1: refresh-token rotation.  Given a stored record with refresh
credential `r1` and a 2xx token-endpoint response: if the payload omits a
refresh credential, the saved record keeps `r1` while taking the access
token and token type from the payload; if the payload includes a nonempty
credential `r2`, the saved record carries `r2`.  End to end, a stored
record `old`/`r1` expired at `now = 1000000` refreshed against a payload
`{access_token: "new", token_type: "Bearer", expires_in: 3600}` with no
refresh credential makes `getValidToken` return a record with access token
`"new"` and refresh credential `"r1"`. -/
theorem c1_refresh_rotation (now : Int) (stored payload : OAuthToken)
    (server : MCPServer) (r1 : String)
    (hr : stored.refresh_token = some r1) (hr1 : r1 ≠ "")
    (hurl : strTruthy (serverTokenUrl server) = true)
    (hcid : strTruthy (serverClientId server) = true) :
    (payload.refresh_token = none →
      refreshToken now (some stored) server (.ok payload) =
        .ok { returned := { payload with refresh_token := some r1 },
              saved := saveToken now { payload with refresh_token := some r1 } } ∧
      (saveToken now { payload with refresh_token := some r1 }).refresh_token = some r1 ∧
      (saveToken now { payload with refresh_token := some r1 }).access_token =
        payload.access_token ∧
      (saveToken now { payload with refresh_token := some r1 }).token_type =
        payload.token_type) ∧
    (∀ r2, payload.refresh_token = some r2 → r2 ≠ "" →
      refreshToken now (some stored) server (.ok payload) =
        .ok { returned := payload, saved := saveToken now payload } ∧
      (saveToken now payload).refresh_token = some r2) ∧
    (getValidToken 1000000
        (some (OAuthToken.mk "old" (some "r1") "Bearer" none (some 999000) none))
        c1Server (.ok (OAuthToken.mk "new" none "Bearer" (some 3600) none none)) =
      .ok (OAuthToken.mk "new" (some "r1") "Bearer" (some 3600) none none) ∧
      (OAuthToken.mk "new" (some "r1") "Bearer" (some 3600) none none).access_token =
        "new" ∧
      (OAuthToken.mk "new" (some "r1") "Bearer" (some 3600) none none).refresh_token =
        some "r1") := by
  have hsrt : storedRefreshToken (some stored) = some r1 := by
    simp [storedRefreshToken, hr]
  have hr1t : strTruthy (some r1) = true := by simp [strTruthy, hr1]
  have hst : strTruthy (storedRefreshToken (some stored)) = true := by
    rw [hsrt, hr1t]
  refine ⟨?_, ?_, rfl, rfl, rfl⟩
  · intro hnone
    have hpf : strTruthy payload.refresh_token = false := by
      rw [hnone]; rfl
    refine ⟨?_, ?_, ?_, ?_⟩
    · simp [refreshToken, hst, hurl, hcid, hpf, hsrt, hr1t]
    · rw [saveToken_preserves_refresh_token]
    · rw [saveToken_preserves_access_token]
    · rw [saveToken_preserves_token_type]
  · intro r2 h2 hr2
    have hpt : strTruthy payload.refresh_token = true := by
      rw [h2]; simp [strTruthy, hr2]
    refine ⟨?_, ?_⟩
    · simp [refreshToken, hst, hurl, hcid, hpt]
    · rw [saveToken_preserves_refresh_token, h2]

/-- C1 witness: the rotation-free refresh and the end-to-end scenario at
the concrete inputs of the claim. -/
theorem c1_refresh_rotation_witness :
    refreshToken 1000000
        (some (OAuthToken.mk "old" (some "r1") "Bearer" none (some 999000) none))
        c1Server (.ok (OAuthToken.mk "new" none "Bearer" (some 3600) none none)) =
      .ok { returned := OAuthToken.mk "new" (some "r1") "Bearer" (some 3600) none none,
            saved :=
              saveToken 1000000
                (OAuthToken.mk "new" (some "r1") "Bearer" (some 3600) none none) } ∧
    getValidToken 1000000
        (some (OAuthToken.mk "old" (some "r1") "Bearer" none (some 999000) none))
        c1Server (.ok (OAuthToken.mk "new" none "Bearer" (some 3600) none none)) =
      .ok (OAuthToken.mk "new" (some "r1") "Bearer" (some 3600) none none) := by
  have h := c1_refresh_rotation 1000000
    (OAuthToken.mk "old" (some "r1") "Bearer" none (some 999000) none)
    (OAuthToken.mk "new" none "Bearer" (some 3600) none none)
    c1Server "r1" rfl (by decide) (by decide) (by decide)
  exact ⟨(h.1 rfl).1, h.2.2.1⟩

/-- C3: `getValidToken` dispatch.  With no stored record it fails with the
no-token error and its outcome is independent of the token-endpoint
exchange (no HTTP request); with a stored record that `isExpired`, it
returns exactly the result of `refreshToken`; otherwise it returns the
stored record unchanged. -/
theorem c3_getValidToken_dispatch (now : Int) (stored : Option OAuthToken)
    (server : MCPServer) (http http' : HttpResult) (token : OAuthToken) :
    (getValidToken now none server http = .error .noToken ∧
      getValidToken now none server http = getValidToken now none server http') ∧
    (stored = some token → isExpired now token = true →
      getValidToken now stored server http =
        (refreshToken now stored server http).map RefreshResult.returned) ∧
    (stored = some token → isExpired now token = false →
      getValidToken now stored server http = .ok token) := by
  refine ⟨⟨rfl, rfl⟩, ?_, ?_⟩
  · intro hs he; subst hs; simp [getValidToken, he]
  · intro hs he; subst hs; simp [getValidToken, he]

/-- C3 witness: no stored record fails with the no-token error regardless
of the exchange outcome; a fresh stored record is returned unchanged. -/
theorem c3_getValidToken_dispatch_witness :
    (getValidToken 0 none c1Server (.httpError 500 "x") = .error .noToken ∧
      getValidToken 0 none c1Server (.httpError 500 "x") =
        getValidToken 0 none c1Server (.ok (OAuthToken.mk "p" none "Bearer" none none none))) ∧
    getValidToken 0 (some (OAuthToken.mk "a" none "Bearer" none none none))
        c1Server (.httpError 500 "x") =
      .ok (OAuthToken.mk "a" none "Bearer" none none none) := by
  have h1 := c3_getValidToken_dispatch 0 none c1Server (.httpError 500 "x")
    (.ok (OAuthToken.mk "p" none "Bearer" none none none))
    (OAuthToken.mk "a" none "Bearer" none none none)
  have h2 := c3_getValidToken_dispatch 0
    (some (OAuthToken.mk "a" none "Bearer" none none none)) c1Server
    (.httpError 500 "x") (.httpError 500 "x")
    (OAuthToken.mk "a" none "Bearer" none none none)
  exact ⟨h1.1, h2.2.2 rfl (by decide)⟩

/-- C5: refresh preconditions.  If the store holds no record or the stored
record's refresh credential is falsy, `refreshToken` fails with the
no-refresh-token error; with a refresh credential but a falsy token
endpoint or client id it fails with the corresponding configuration error.
Each failure is independent of the token-endpoint exchange outcome — no
network call is made and nothing is retried. -/
theorem c5_refresh_preconditions (now : Int) (stored : Option OAuthToken)
    (server : MCPServer) (http http' : HttpResult) :
    (strTruthy (storedRefreshToken stored) = false →
      refreshToken now stored server http = .error .noRefreshToken ∧
      refreshToken now stored server http = refreshToken now stored server http') ∧
    (strTruthy (storedRefreshToken stored) = true →
      strTruthy (serverTokenUrl server) = false →
      refreshToken now stored server http = .error .missingTokenUrl ∧
      refreshToken now stored server http = refreshToken now stored server http') ∧
    (strTruthy (storedRefreshToken stored) = true →
      strTruthy (serverTokenUrl server) = true →
      strTruthy (serverClientId server) = false →
      refreshToken now stored server http = .error .missingClientId ∧
      refreshToken now stored server http = refreshToken now stored server http') := by
  refine ⟨?_, ?_, ?_⟩ <;> intros <;> constructor <;> simp_all [refreshToken]

/-- C5 witness: an empty store, a record without token endpoint, and a
descriptor without client id, each at two different exchange outcomes. -/
theorem c5_refresh_preconditions_witness :
    (refreshToken 0 none c1Server (.httpError 400 "x") = .error .noRefreshToken ∧
      refreshToken 0 none c1Server (.httpError 400 "x") =
        refreshToken 0 none c1Server (.ok (OAuthToken.mk "p" none "Bearer" none none none))) ∧
    (refreshToken 0 (some (OAuthToken.mk "a" (some "r") "Bearer" none none none))
        (MCPServer.mk "s" "u" none) (.httpError 400 "x") = .error .missingTokenUrl) ∧
    (refreshToken 0 (some (OAuthToken.mk "a" (some "r") "Bearer" none none none))
        (MCPServer.mk "s" "u" (some (OAuthConfig.mk none (some "t") none none [])))
        (.httpError 400 "x") = .error .missingClientId) := by
  have h1 := c5_refresh_preconditions 0 none c1Server (.httpError 400 "x")
    (.ok (OAuthToken.mk "p" none "Bearer" none none none))
  have h2 := c5_refresh_preconditions 0
    (some (OAuthToken.mk "a" (some "r") "Bearer" none none none))
    (MCPServer.mk "s" "u" none) (.httpError 400 "x") (.httpError 400 "x")
  have h3 := c5_refresh_preconditions 0
    (some (OAuthToken.mk "a" (some "r") "Bearer" none none none))
    (MCPServer.mk "s" "u" (some (OAuthConfig.mk none (some "t") none none [])))
    (.httpError 400 "x") (.httpError 400 "x")
  exact ⟨h1.1 (by decide), (h2.2.1 (by decide) (by decide)).1,
    (h3.2.2 (by decide) (by decide) (by decide)).1⟩

/-- Concrete descriptor with a full OAuth configuration, for flow
witnesses. -/
def c6Server : MCPServer :=
  { name := "svc", url := "https://svc.example/mcp",
    oauth := some { authorizationUrl := some "https://svc.example/authorize",
                    tokenUrl := some "https://svc.example/token",
                    clientId := some "client-1" } }

/-- Concrete code-for-token exchange that fails. -/
def c6ExchangeA : String → Except FlowError OAuthToken :=
  fun _ => .error (.exchangeFailed 500 "boom")

/-- Concrete code-for-token exchange that succeeds. -/
def c6ExchangeB : String → Except FlowError OAuthToken :=
  fun code => .ok (OAuthToken.mk code none "Bearer" none none none)

/-- C6: state (CSRF) check.  If the state a successful callback carries
differs from the state generated for the attempt, the flow fails with the
state-mismatch error (given a well-configured descriptor), and its outcome
is independent of the code-for-token exchange — the exchange is never
performed; a mismatch is never silently ignored. -/
theorem c6_state_mismatch (server : MCPServer) (genState : String)
    (cb : OAuthCallbackResult)
    (exchange exchange' : String → Except FlowError OAuthToken) (now : Int)
    (hne : cb.state ≠ genState) :
    (strTruthy (server.oauth.bind OAuthConfig.authorizationUrl) = true →
      strTruthy (serverTokenUrl server) = true →
      strTruthy (serverClientId server) = true →
      runOAuthFlow server genState (.ok cb) exchange now = .error .stateMismatch) ∧
    runOAuthFlow server genState (.ok cb) exchange now =
      runOAuthFlow server genState (.ok cb) exchange' now := by
  have hb : (cb.state != genState) = true := by simp [hne]
  constructor
  · intro h1 h2 h3
    simp [runOAuthFlow, h1, h2, h3, hb]
  · simp [runOAuthFlow, hb]

/-- C6 witness: generated state `"s1"`, callback state `"s2"`, two
different exchange functions. -/
theorem c6_state_mismatch_witness :
    runOAuthFlow c6Server "s1" (.ok (OAuthCallbackResult.mk "c" "s2")) c6ExchangeA 0 =
      .error .stateMismatch ∧
    runOAuthFlow c6Server "s1" (.ok (OAuthCallbackResult.mk "c" "s2")) c6ExchangeA 0 =
      runOAuthFlow c6Server "s1" (.ok (OAuthCallbackResult.mk "c" "s2")) c6ExchangeB 0 := by
  have h := c6_state_mismatch c6Server "s1" (OAuthCallbackResult.mk "c" "s2")
    c6ExchangeA c6ExchangeB 0 (by decide)
  exact ⟨h.1 (by decide) (by decide) (by decide), h.2⟩

/-- C7 (counterexample): an inbound request to `/callback` carrying
`code=abc`, `state=xyz` and also `error=access_denied` is answered 400 and
rejects with the provider error — not answered 200 and resolved with
`{code, state}` as the claim states for every request carrying both code
and state, because the `error` branch is checked first. -/
theorem c7_error_branch_counterexample :
    handleCallbackRequest
        (CallbackRequest.mk "/callback" (some "abc") (some "xyz") (some "access_denied")) =
      (400, true, .oauthProviderError "access_denied") ∧
    (handleCallbackRequest
        (CallbackRequest.mk "/callback" (some "abc") (some "xyz") (some "access_denied"))).1 ≠
      200 ∧
    (CallbackRequest.mk "/callback" (some "abc") (some "xyz") (some "access_denied")).code =
      some "abc" ∧
    (CallbackRequest.mk "/callback" (some "abc") (some "xyz") (some "access_denied")).state =
      some "xyz" := by
  decide

/-- C7 (amended): one-shot listener behaviour.  While open: a request with
path other than `/callback` is answered 404 and leaves the listener open
with its outcome unchanged; a `/callback` request with no (truthy) `error`
parameter and a falsy `code` or `state` is answered 400, closes the
listener and fails the wait as malformed; a `/callback` request carrying
nonempty `code` and `state` and no (truthy) `error` parameter is answered
200, closes the listener and resolves the wait with exactly `{code,
state}`; a `/callback` request carrying a nonempty `error` parameter is
answered 400, closes the listener and fails with the provider error.  A
closed listener accepts no further request. -/
theorem c7_listener_one_shot (st : ListenerState) (req : CallbackRequest)
    (out : CallbackOutcome) (c s e : String) :
    (req.path ≠ "/callback" →
      listenerStep (ListenerState.mk true out) req =
        (ListenerState.mk true out, some 404)) ∧
    (req.path = "/callback" → strTruthy req.error = false →
      (strTruthy req.code = false ∨ strTruthy req.state = false) →
      listenerStep (ListenerState.mk true out) req =
        (ListenerState.mk false .malformedCallback, some 400)) ∧
    (req.path = "/callback" → strTruthy req.error = false →
      req.code = some c → c ≠ "" → req.state = some s → s ≠ "" →
      listenerStep (ListenerState.mk true out) req =
        (ListenerState.mk false (.resolved (OAuthCallbackResult.mk c s)), some 200)) ∧
    (req.path = "/callback" → req.error = some e → e ≠ "" →
      listenerStep (ListenerState.mk true out) req =
        (ListenerState.mk false (.oauthProviderError e), some 400)) ∧
    (st.isOpen = false → listenerStep st req = (st, none)) := by
  refine ⟨?_, ?_, ?_, ?_, ?_⟩
  · intro hp
    simp [listenerStep, handleCallbackRequest, hp]
  · intro hp herr hcs
    rcases hcs with hc | hc <;>
      simp [listenerStep, handleCallbackRequest, hp, herr, hc]
  · intro hp herr hc hcne hs hsne
    have hct : strTruthy (some c) = true := by simp [strTruthy, hcne]
    have hst : strTruthy (some s) = true := by simp [strTruthy, hsne]
    simp [listenerStep, handleCallbackRequest, hp, herr, hc, hs, hct, hst]
  · intro hp herr hene
    have het : strTruthy (some e) = true := by simp [strTruthy, hene]
    simp [listenerStep, handleCallbackRequest, hp, herr, het]
  · intro hcl
    simp [listenerStep, hcl]

/-- C7 witness: a 404 probe leaves the listener open, the completing
request resolves and closes it, and the closed listener accepts nothing. -/
theorem c7_listener_one_shot_witness :
    listenerStep (ListenerState.mk true .pending) (CallbackRequest.mk "/x" none none none) =
      (ListenerState.mk true .pending, some 404) ∧
    listenerStep (ListenerState.mk true .pending)
        (CallbackRequest.mk "/callback" (some "abc") (some "xyz") none) =
      (ListenerState.mk false (.resolved (OAuthCallbackResult.mk "abc" "xyz")), some 200) ∧
    listenerStep (ListenerState.mk false (.resolved (OAuthCallbackResult.mk "abc" "xyz")))
        (CallbackRequest.mk "/callback" (some "zzz") (some "www") none) =
      (ListenerState.mk false (.resolved (OAuthCallbackResult.mk "abc" "xyz")), none) := by
  have h1 := c7_listener_one_shot (ListenerState.mk true .pending)
    (CallbackRequest.mk "/x" none none none) .pending "a" "b" "c"
  have h2 := c7_listener_one_shot (ListenerState.mk true .pending)
    (CallbackRequest.mk "/callback" (some "abc") (some "xyz") none) .pending "abc" "xyz" "c"
  have h3 := c7_listener_one_shot
    (ListenerState.mk false (.resolved (OAuthCallbackResult.mk "abc" "xyz")))
    (CallbackRequest.mk "/callback" (some "zzz") (some "www") none) .pending "a" "b" "c"
  exact ⟨h1.1 (by decide), h2.2.2.1 rfl rfl rfl (by decide) rfl (by decide),
    h3.2.2.2.2 rfl⟩

/-- C8: outcome classification of an authorized upstream call.  A
connection failure with no response yields the unreachable error; a 401 or
403 response yields the auth-rejected error; a status of 500 or above
yields the upstream error; any other non-2xx status yields the
unexpected-response error carrying status and body; and the single
exchange's failure is always surfaced as exactly one typed error (never
swallowed, never retried). -/
theorem c8_outcome_classification (serverName url message body : String)
    (status : Int) (e : AxiosFailure) :
    (handleAxiosError serverName url (.noResponse message) =
      .unreachable serverName url message) ∧
    (status = 401 ∨ status = 403 →
      handleAxiosError serverName url (.response status body) =
        .authRejected serverName status) ∧
    (500 ≤ status →
      handleAxiosError serverName url (.response status body) =
        .upstream serverName status) ∧
    (status ≠ 401 → status ≠ 403 → status < 500 →
      handleAxiosError serverName url (.response status body) =
        .unexpectedResponse serverName status body) ∧
    upstreamCall serverName url (.error e) =
      .error (handleAxiosError serverName url e) := by
  refine ⟨rfl, ?_, ?_, ?_, rfl⟩
  · intro h
    simp [handleAxiosError, h]
  · intro h
    have h1 : ¬(status = 401 ∨ status = 403) := by omega
    have h2 : status ≠ 0 ∧ 500 ≤ status := by omega
    simp [handleAxiosError, h1, h2]
  · intro h1 h2 h3
    have h4 : ¬(status = 401 ∨ status = 403) := by tauto
    have h5 : ¬(status ≠ 0 ∧ 500 ≤ status) := by omega
    simp [handleAxiosError, h4, h5]

/-- C8 witness: the four classes at concrete statuses 401, 503, 404 and at
a connection failure. -/
theorem c8_outcome_classification_witness :
    handleAxiosError "svc" "https://u" (.noResponse "ECONNREFUSED") =
      .unreachable "svc" "https://u" "ECONNREFUSED" ∧
    handleAxiosError "svc" "https://u" (.response 401 "denied") =
      .authRejected "svc" 401 ∧
    handleAxiosError "svc" "https://u" (.response 503 "down") =
      .upstream "svc" 503 ∧
    handleAxiosError "svc" "https://u" (.response 404 "missing") =
      .unexpectedResponse "svc" 404 "missing" := by
  have h1 := c8_outcome_classification "svc" "https://u" "ECONNREFUSED" "denied" 401
    (.noResponse "ECONNREFUSED")
  have h2 := c8_outcome_classification "svc" "https://u" "m" "down" 503
    (.response 503 "down")
  have h3 := c8_outcome_classification "svc" "https://u" "m" "missing" 404
    (.response 404 "missing")
  exact ⟨h1.1, h1.2.1 (Or.inl rfl), h2.2.2.1 (by decide),
    h3.2.2.2.1 (by decide) (by decide) (by decide)⟩
